import Mathlib

/-!
Shallow embedding of `homework.py`: a fitness tracker computing distance,
mean speed and spent calories for running, race-walking and swimming
workouts, plus the message renderer and the package dispatcher.

Python floats are modelled as exact rationals (`ℚ`); the numeric literals
of the source (0.65, 1.38, 1.79, 0.035, 0.278, 0.029, 1.1) are carried
exactly.  A Python function body that can fall through without `return`
(returning `None`) is modelled with `Option`; the `ValueError` raised by
tuple unpacking of a wrong-length list is modelled by an explicit result
constructor.
-/

namespace Homework

/-- Decimal digit characters of a natural number, most significant first
(empty for 0).  Mirrors the decimal rendering Python's string formatting
performs on the integral part of a number. -/
def natDecimalAux : Nat → List Char
  | 0 => []
  | n + 1 => natDecimalAux ((n + 1) / 10) ++ [Nat.digitChar ((n + 1) % 10)]
decreasing_by exact Nat.div_lt_self (Nat.succ_pos n) (by norm_num)

/-- Decimal string of a natural number. -/
def natDecimal (n : Nat) : String :=
  if n = 0 then "0" else String.mk (natDecimalAux n)

/-- Three decimal digits of `n` (intended for `n < 1000`), zero padded on
the left: the fractional part produced by Python's `.3f` format. -/
def padZero3 (n : Nat) : String :=
  String.mk [Nat.digitChar (n / 100 % 10), Nat.digitChar (n / 10 % 10),
    Nat.digitChar (n % 10)]

/-- Round to the nearest integer, ties to even: the rounding Python's
`format(x, ".3f")` applies after scaling by 1000. -/
def roundHalfEven (x : ℚ) : ℤ :=
  let f : ℤ := ⌊x⌋
  let r : ℚ := x - f
  if r < 1 / 2 then f
  else if 1 / 2 < r then f + 1
  else if f % 2 = 0 then f else f + 1

/-- Python's `f'{q:.3f}'`: fixed-point rendering with exactly three digits
after the decimal point. -/
def format3 (q : ℚ) : String :=
  let n : ℤ := roundHalfEven (q * 1000)
  if n < 0 then
    "-" ++ natDecimal ((-n).toNat / 1000) ++ "." ++ padZero3 ((-n).toNat % 1000)
  else
    natDecimal (n.toNat / 1000) ++ "." ++ padZero3 (n.toNat % 1000)

/-- `class InfoMessage`: the summary report.  `calories` is an `Option`
because the base class's `get_spent_calories` body is `pass`, which makes
Python hand `None` to this constructor. -/
structure InfoMessage where
  training_type : String
  duration : ℚ
  distance : ℚ
  speed : ℚ
  calories : Option ℚ

/-- `InfoMessage.get_message`.  With `calories = None` the `.3f` format
specifier raises `TypeError` in Python, modelled by `none`. -/
def get_message (m : InfoMessage) : Option String :=
  match m.calories with
  | none => none
  | some c =>
      some ("Тип тренировки: " ++ m.training_type ++ "; Длительность: "
        ++ format3 m.duration ++ " ч.; Дистанция: " ++ format3 m.distance
        ++ " км; Ср. скорость: " ++ format3 m.speed
        ++ " км/ч; Потрачено ккал: " ++ format3 c ++ ".")

/-- The class hierarchy rooted at `Training`, as a tagged union: the base
class itself (instantiable in Python) and its three subclasses. -/
inductive Training where
  | base (action duration weight : ℚ)
  | running (action duration weight : ℚ)
  | sportsWalking (action duration weight height : ℚ)
  | swimming (action duration weight length_pool count_pool : ℚ)

/-- `Training.M_IN_KM = 1000`. -/
def M_IN_KM : ℚ := 1000

/-- `Training.HOURS_PER_MINUTES = 60`. -/
def HOURS_PER_MINUTES : ℚ := 60

/-- `Running.CALORIES_MEAN_SPEED_MULTIPLIER = 18`. -/
def CALORIES_MEAN_SPEED_MULTIPLIER : ℚ := 18

/-- `Running.CALORIES_MEAN_SPEED_SHIFT = 1.79`. -/
def CALORIES_MEAN_SPEED_SHIFT : ℚ := 1.79

/-- `SportsWalking.NUM_COEF_0_035 = 0.035`. -/
def NUM_COEF_0_035 : ℚ := 0.035

/-- `SportsWalking.NUM_COEF_0_029 = 0.029`. -/
def NUM_COEF_0_029 : ℚ := 0.029

/-- `SportsWalking.KM_H_IN_M_S = 0.278`. -/
def KM_H_IN_M_S : ℚ := 0.278

/-- `SportsWalking.CM_IN_M = 100`. -/
def CM_IN_M : ℚ := 100

/-- `Swimming.NUM_COEF_1_1 = 1.1`. -/
def NUM_COEF_1_1 : ℚ := 1.1

/-- `Swimming.SPEED_MULTIPLIER = 2`. -/
def SPEED_MULTIPLIER : ℚ := 2

namespace Training

/-- `self.action`. -/
def action : Training → ℚ
  | .base a _ _ => a
  | .running a _ _ => a
  | .sportsWalking a _ _ _ => a
  | .swimming a _ _ _ _ => a

/-- `self.duration`. -/
def duration : Training → ℚ
  | .base _ d _ => d
  | .running _ d _ => d
  | .sportsWalking _ d _ _ => d
  | .swimming _ d _ _ _ => d

/-- `self.weight`. -/
def weight : Training → ℚ
  | .base _ _ w => w
  | .running _ _ w => w
  | .sportsWalking _ _ w _ => w
  | .swimming _ _ w _ _ => w

/-- `self.LEN_STEP`: `0.65` on the base class, overridden to `1.38` by
`Swimming`. -/
def LEN_STEP : Training → ℚ
  | .swimming _ _ _ _ _ => 1.38
  | _ => 0.65

/-- `self.__class__.__name__`: the runtime class name. -/
def className : Training → String
  | .base _ _ _ => "Training"
  | .running _ _ _ => "Running"
  | .sportsWalking _ _ _ _ => "SportsWalking"
  | .swimming _ _ _ _ _ => "Swimming"

end Training

/-- `Training.get_distance`: `self.action * self.LEN_STEP / self.M_IN_KM`,
inherited unchanged by every subclass. -/
def get_distance (t : Training) : ℚ :=
  t.action * t.LEN_STEP / M_IN_KM

/-- `Training.get_mean_speed`: `self.get_distance() / self.duration`,
overridden by `Swimming` to
`self.length_pool * self.count_pool / self.M_IN_KM / self.duration`. -/
def get_mean_speed : Training → ℚ
  | .swimming _ d _ lp cp => lp * cp / M_IN_KM / d
  | t => get_distance t / t.duration

/-- `get_spent_calories`: `pass` on the base class (Python returns `None`),
with the variant-specific formulas in the subclasses. -/
def get_spent_calories : Training → Option ℚ
  | .base _ _ _ => none
  | .running a d w =>
      some ((CALORIES_MEAN_SPEED_MULTIPLIER * get_mean_speed (.running a d w)
          + CALORIES_MEAN_SPEED_SHIFT) * w / M_IN_KM * d * HOURS_PER_MINUTES)
  | .sportsWalking a d w h =>
      some ((NUM_COEF_0_035 * w
          + (get_mean_speed (.sportsWalking a d w h) * KM_H_IN_M_S) ^ 2 / h
            * CM_IN_M * NUM_COEF_0_029 * w) * d * HOURS_PER_MINUTES)
  | .swimming a d w lp cp =>
      some ((get_mean_speed (.swimming a d w lp cp) + NUM_COEF_1_1)
          * SPEED_MULTIPLIER * w * d)

/-- `Training.show_training_info`: packages the class name, the raw
duration and the three computed statistics into an `InfoMessage`. -/
def show_training_info (t : Training) : InfoMessage :=
  { training_type := t.className
    duration := t.duration
    distance := get_distance t
    speed := get_mean_speed t
    calories := get_spent_calories t }

/-- Outcome of `read_package`: a constructed `Training`, the `ValueError`
Python raises when tuple unpacking meets a list of the wrong length, or
the implicit `None` return when no branch of the `if`/`elif` chain
matches. -/
inductive ReadResult where
  | ok (t : Training)
  | unpackError
  | noneReturn

/-- `read_package(workout_type, data)`: dispatch on the workout code,
unpacking the data list into the matching constructor. -/
def read_package (workout_type : String) (data : List ℚ) : ReadResult :=
  if workout_type = "SWM" then
    match data with
    | [a, d, w, lp, cp] => .ok (.swimming a d w lp cp)
    | _ => .unpackError
  else if workout_type = "RUN" then
    match data with
    | [a, d, w] => .ok (.running a d w)
    | _ => .unpackError
  else if workout_type = "WLK" then
    match data with
    | [a, d, w, h] => .ok (.sportsWalking a d w h)
    | _ => .unpackError
  else .noneReturn

/-! ## Helper lemmas about the decimal renderer -/

/-- A digit below ten renders as a decimal digit character. -/
theorem digitChar_isDigit_of_lt_ten (d : Nat) (hd : d < 10) :
    (Nat.digitChar d).isDigit := by
  interval_cases d <;> decide

/-- Every character produced by `natDecimalAux` is a decimal digit. -/
theorem natDecimalAux_digits (n : Nat) : ∀ ch ∈ natDecimalAux n, ch.isDigit := by
  induction n using Nat.strong_induction_on with
  | _ n ih =>
    match n with
    | 0 =>
      intro ch hch
      simp [natDecimalAux] at hch
    | m + 1 =>
      intro ch hch
      rw [natDecimalAux] at hch
      rcases List.mem_append.mp hch with h | h
      · exact ih ((m + 1) / 10) (Nat.div_lt_self (Nat.succ_pos m) (by norm_num)) ch h
      · rw [List.mem_singleton] at h
        subst h
        exact digitChar_isDigit_of_lt_ten _ (Nat.mod_lt _ (by norm_num))

/-- Every character of `natDecimal n` is a decimal digit. -/
theorem natDecimal_digits (n : Nat) : ∀ ch ∈ (natDecimal n).data, ch.isDigit := by
  unfold natDecimal
  by_cases h : n = 0
  · simp [h]
  · simpa [h] using natDecimalAux_digits n

/-- A decimal digit character is not a decimal point. -/
theorem isDigit_ne_dot {ch : Char} (h : ch.isDigit) : ch ≠ '.' := by
  intro he
  subst he
  exact absurd h (by decide)

/-- `padZero3` always has exactly three characters. -/
theorem padZero3_length (n : Nat) : (padZero3 n).length = 3 := rfl

/-- Every character of `padZero3 n` is a decimal digit. -/
theorem padZero3_digits (n : Nat) : ∀ ch ∈ (padZero3 n).data, ch.isDigit := by
  intro ch hch
  simp only [padZero3, String.data, List.mem_cons, List.not_mem_nil, or_false] at hch
  rcases hch with h | h | h <;> subst h <;>
    exact digitChar_isDigit_of_lt_ten _ (Nat.mod_lt _ (by norm_num))

/-- `format3` splits as an integral part free of decimal points, a point,
and exactly three digit characters. -/
theorem format3_split (q : ℚ) :
    ∃ ip fp : String, format3 q = ip ++ "." ++ fp ∧ fp.length = 3
      ∧ (∀ ch ∈ fp.data, ch.isDigit) ∧ ∀ ch ∈ ip.data, ch ≠ '.' := by
  unfold format3
  by_cases h : roundHalfEven (q * 1000) < 0
  · refine ⟨"-" ++ natDecimal ((-roundHalfEven (q * 1000)).toNat / 1000),
      padZero3 ((-roundHalfEven (q * 1000)).toNat % 1000), by simp [h], rfl,
      padZero3_digits _, ?_⟩
    intro ch hch
    rcases List.mem_append.mp hch with hm | hm
    · rw [List.mem_singleton] at hm
      subst hm
      decide
    · exact isDigit_ne_dot (natDecimal_digits _ ch hm)
  · exact ⟨natDecimal ((roundHalfEven (q * 1000)).toNat / 1000),
      padZero3 ((roundHalfEven (q * 1000)).toNat % 1000), by simp [h], rfl,
      padZero3_digits _, fun ch hch => isDigit_ne_dot (natDecimal_digits _ ch hch)⟩

/-- The scaled sample distance rounds up: `0.9936 * 1000` to `994`. -/
theorem roundHalfEven_sample : roundHalfEven ((0.9936 : ℚ) * 1000) = 994 := by
  simp only [roundHalfEven]
  norm_num

/-! ## Claim theorems -/

/-- C1: for every workout record, `get_spent_calories` equals the variant's
spec formula — Running `(18 * meanSpeed + 1.79) * weight / 1000 * duration
* 60`, SportsWalking `(0.035 * weight + (meanSpeed * 0.278)^2 / height
* 100 * 0.029 * weight) * duration * 60` with `CM_IN_M = 100` multiplying
the squared-speed term, Swimming `(meanSpeed + 1.1) * 2 * weight
* duration`, where `meanSpeed` is the variant's mean-speed operation. -/
theorem calories_match_spec_formulas (a d w h lp cp : ℚ) :
    get_spent_calories (.running a d w)
      = some ((18 * get_mean_speed (.running a d w) + 1.79) * w / 1000 * d * 60)
  ∧ get_spent_calories (.sportsWalking a d w h)
      = some ((0.035 * w + (get_mean_speed (.sportsWalking a d w h) * 0.278) ^ 2 / h
          * 100 * 0.029 * w) * d * 60)
  ∧ get_spent_calories (.swimming a d w lp cp)
      = some ((get_mean_speed (.swimming a d w lp cp) + 1.1) * 2 * w * d) := by
  refine ⟨?_, ?_, ?_⟩ <;>
    simp [get_spent_calories, CALORIES_MEAN_SPEED_MULTIPLIER,
      CALORIES_MEAN_SPEED_SHIFT, M_IN_KM, HOURS_PER_MINUTES, NUM_COEF_0_035,
      NUM_COEF_0_029, KM_H_IN_M_S, CM_IN_M, NUM_COEF_1_1, SPEED_MULTIPLIER]

/-- C2: `get_distance` is `actionCount * 0.65 / 1000` for Running and
SportsWalking and `actionCount * 1.38 / 1000` for Swimming; the
`LEN_STEP` constant is the only thing Swimming changes in the distance
computation, every variant computing `action * LEN_STEP / 1000`. -/
theorem distance_uses_variant_step_length (a d w h lp cp : ℚ) :
    get_distance (.running a d w) = a * 0.65 / 1000
  ∧ get_distance (.sportsWalking a d w h) = a * 0.65 / 1000
  ∧ get_distance (.swimming a d w lp cp) = a * 1.38 / 1000
  ∧ Training.LEN_STEP (.running a d w) = 0.65
  ∧ Training.LEN_STEP (.sportsWalking a d w h) = 0.65
  ∧ Training.LEN_STEP (.swimming a d w lp cp) = 1.38
  ∧ ∀ t : Training, get_distance t = t.action * t.LEN_STEP / 1000 := by
  refine ⟨?_, ?_, ?_, rfl, rfl, rfl, fun t => rfl⟩ <;>
    simp [get_distance, Training.action, Training.LEN_STEP, M_IN_KM]

/-- C3: with nonzero duration, `get_mean_speed` is `get_distance / duration`
for Running and SportsWalking, while Swimming overrides it to
`length_pool * count_pool / 1000 / duration`, ignoring the stroke count. -/
theorem mean_speed_formulas (a d w h lp cp : ℚ) (_hd : d ≠ 0) :
    get_mean_speed (.running a d w) = get_distance (.running a d w) / d
  ∧ get_mean_speed (.sportsWalking a d w h)
      = get_distance (.sportsWalking a d w h) / d
  ∧ get_mean_speed (.swimming a d w lp cp) = lp * cp / 1000 / d
  ∧ get_mean_speed (.swimming a d w lp cp)
      = get_mean_speed (.swimming (a + 1) d w lp cp) := by
  refine ⟨?_, ?_, ?_, ?_⟩ <;>
    simp [get_mean_speed, Training.duration, M_IN_KM]

/-- C3 witness: the Swimming sample with duration 1 hour. -/
theorem mean_speed_formulas_witness :
    (1 : ℚ) ≠ 0
  ∧ get_mean_speed (.swimming 720 1 80 25 40) = 25 * 40 / 1000 / 1 :=
  ⟨by norm_num, (mean_speed_formulas 720 1 80 180 25 40 (by norm_num)).2.2.1⟩

/-- C4: `read_package` on the unrecognized code `"XYZ"` falls through the
`if`/`elif` chain and returns `None` — it raises no error naming the code
(violating its own `-> Training` annotation), though it also constructs no
record. -/
theorem read_package_unknown_code_returns_none :
    read_package "XYZ" [1, 2, 3] = .noneReturn := rfl

/-- C5: for each recognized code, a data list of the wrong length makes
`read_package` fail with Python's unpack `ValueError`; it never truncates
or pads the list into a record. -/
theorem read_package_arity_mismatch (data : List ℚ) :
    (data.length ≠ 5 → read_package "SWM" data = .unpackError)
  ∧ (data.length ≠ 3 → read_package "RUN" data = .unpackError)
  ∧ (data.length ≠ 4 → read_package "WLK" data = .unpackError) := by
  rcases data with _ | ⟨a, _ | ⟨b, _ | ⟨c, _ | ⟨d, _ | ⟨e, _ | ⟨f, rest⟩⟩⟩⟩⟩⟩ <;>
    refine ⟨fun h => ?_, fun h => ?_, fun h => ?_⟩ <;>
    first
      | rfl
      | exact absurd rfl h

/-- C5 witness: `"RUN"` with only two arguments. -/
theorem read_package_arity_mismatch_witness :
    ([(1 : ℚ), 2].length ≠ 3) ∧ read_package "RUN" [1, 2] = .unpackError :=
  ⟨by decide, (read_package_arity_mismatch [1, 2]).2.1 (by decide)⟩

/-- C6: on a directly instantiated base `Training`, `show_training_info`
does not fail — it returns an `InfoMessage` whose calories field is the
`None` produced by the base `get_spent_calories` (whose body is `pass`);
only the later `.3f` formatting of that `None` fails (`TypeError`), so no
`UnimplementedFormula` error exists anywhere. -/
theorem base_training_summary_has_none_calories :
    (show_training_info (.base 1 1 1)).calories = none
  ∧ get_message (show_training_info (.base 1 1 1)) = none := ⟨rfl, rfl⟩

/-- C7 counterexample: on the Running sample the code's calorie value is
exactly `797.805`, which is not within `5` of the claimed `791.963`. -/
theorem running_sample_calories_not_791_963 :
    get_spent_calories (.running 15000 1 75) = some (797.805 : ℚ)
  ∧ (5 : ℚ) < |(797.805 : ℚ) - 791.963| := by
  constructor
  · norm_num [get_spent_calories, get_mean_speed, get_distance, Training.action,
      Training.LEN_STEP, Training.duration, M_IN_KM, HOURS_PER_MINUTES,
      CALORIES_MEAN_SPEED_MULTIPLIER, CALORIES_MEAN_SPEED_SHIFT]
  · rw [abs_of_pos] <;> norm_num

/-- C7 (amended): on the sample inputs the operations return the stated
values — Running(15000, 1, 75) has distance and mean speed 9.75 and
calories `(18 * 9.75 + 1.79) * 75 / 1000 * 1 * 60 = 797.805`;
Swimming(720, 1, 80, 25, 40) has mean speed 1, distance 0.9936 and
calories 336. -/
theorem sample_values :
    get_distance (.running 15000 1 75) = 9.75
  ∧ get_mean_speed (.running 15000 1 75) = 9.75
  ∧ get_spent_calories (.running 15000 1 75)
      = some ((18 * 9.75 + 1.79) * 75 / 1000 * 1 * 60 : ℚ)
  ∧ ((18 * 9.75 + 1.79) * 75 / 1000 * 1 * 60 : ℚ) = 797.805
  ∧ get_mean_speed (.swimming 720 1 80 25 40) = 1
  ∧ get_distance (.swimming 720 1 80 25 40) = 0.9936
  ∧ get_spent_calories (.swimming 720 1 80 25 40) = some (336 : ℚ) := by
  refine ⟨?_, ?_, ?_, by norm_num, ?_, ?_, ?_⟩ <;>
    norm_num [get_spent_calories, get_mean_speed, get_distance, Training.action,
      Training.LEN_STEP, Training.duration, M_IN_KM, HOURS_PER_MINUTES,
      CALORIES_MEAN_SPEED_MULTIPLIER, CALORIES_MEAN_SPEED_SHIFT, NUM_COEF_1_1,
      SPEED_MULTIPLIER]

/-- C8: whenever the calories field is present, `get_message` renders the
fixed template with the fields in the order type, duration, distance, mean
speed, calories; every `format3` output has exactly three digit characters
after its decimal point regardless of magnitude, and the sample distance
`0.9936` renders as `"0.994"`. -/
theorem message_template_three_decimals (m : InfoMessage) (c : ℚ)
    (hc : m.calories = some c) :
    get_message m = some ("Тип тренировки: " ++ m.training_type
        ++ "; Длительность: " ++ format3 m.duration ++ " ч.; Дистанция: "
        ++ format3 m.distance ++ " км; Ср. скорость: " ++ format3 m.speed
        ++ " км/ч; Потрачено ккал: " ++ format3 c ++ ".")
  ∧ (∀ q : ℚ, ∃ ip fp : String, format3 q = ip ++ "." ++ fp ∧ fp.length = 3
      ∧ (∀ ch ∈ fp.data, ch.isDigit) ∧ ∀ ch ∈ ip.data, ch ≠ '.')
  ∧ format3 0.9936 = "0.994" := by
  refine ⟨by simp [get_message, hc], format3_split, ?_⟩
  simp only [format3, roundHalfEven_sample]
  norm_num [natDecimal, padZero3]
  decide

/-- C8 witness: the rendered Running sample report. -/
theorem message_template_witness :
    get_message ⟨"Running", 1, 9.75, 9.75, some (797.805 : ℚ)⟩
      = some ("Тип тренировки: " ++ "Running" ++ "; Длительность: "
        ++ format3 (1 : ℚ) ++ " ч.; Дистанция: " ++ format3 (9.75 : ℚ)
        ++ " км; Ср. скорость: " ++ format3 (9.75 : ℚ)
        ++ " км/ч; Потрачено ккал: " ++ format3 (797.805 : ℚ) ++ ".") :=
  (message_template_three_decimals
    ⟨"Running", 1, 9.75, 9.75, some (797.805 : ℚ)⟩ 797.805 rfl).1

/-- C9: the `training_type` carried by the summary is the implementation
class name — `"Running"`, `"Swimming"`, and `"SportsWalking"` (not
`"Walking"`) for race-walking records. -/
theorem summary_carries_class_name (a d w h lp cp : ℚ) :
    (show_training_info (.running a d w)).training_type = "Running"
  ∧ (show_training_info (.sportsWalking a d w h)).training_type
      = "SportsWalking"
  ∧ (show_training_info (.swimming a d w lp cp)).training_type = "Swimming"
  ∧ "SportsWalking" ≠ "Walking" := ⟨rfl, rfl, rfl, by decide⟩

/-- C10: on the Swimming sample, mean speed times duration differs from the
distance field: the two statistics of one report come from independent
inputs (pool laps vs stroke count) and need not be consistent. -/
theorem swimming_speed_distance_inconsistent :
    get_mean_speed (.swimming 720 1 80 25 40)
        * (Training.swimming 720 1 80 25 40).duration
      ≠ get_distance (.swimming 720 1 80 25 40) := by
  norm_num [get_mean_speed, get_distance, Training.action, Training.LEN_STEP,
    Training.duration, M_IN_KM]

end Homework
